import Mathlib

/-! Verification of the FastAPI GPT-2 / ViT deployment notebook
(`model_deployment.ipynb`): request handlers, health endpoint, and the
sequential performance-test harness with its descriptive statistics. -/

namespace GptVitApi

/-- HTTP response produced by a handler: a 200 success carrying the JSON
payload, or an HTTPException carrying a status code and a detail string
(the handlers only ever raise HTTPException with status 500 and detail
str(e)). -/
inductive Resp (α : Type) where
  | success (payload : α)
  | httpError (status : Nat) (detail : String)
deriving DecidableEq

/-- The HTTP status code of a response: a plain dict return is serialized by
FastAPI with status 200; an HTTPException carries its own status code. -/
def Resp.status {α : Type} : Resp α → Nat
  | .success _ => 200
  | .httpError s _ => s

/-- The detail field of an error response, if any. -/
def Resp.detail {α : Type} : Resp α → Option String
  | .success _ => none
  | .httpError _ d => some d

/-- Request model TextRequest: field text is a required string, field
max_length is Optional[int] with default 100 (so an omitted field becomes
the integer 100, while an explicit JSON null becomes None). -/
structure TextRequest where
  text : String
  max_length : Option Int
deriving DecidableEq

/-- Pydantic construction of a TextRequest from well-typed body fields.
The second argument models the max_length JSON field: none means the field
was omitted (pydantic then applies the declared default 100), some none
models an explicit null, some (some k) an explicit integer. No validation
beyond the declared field types is performed. -/
def TextRequest.ofFields (text : String) (maxLenField : Option (Option Int)) :
    TextRequest :=
  { text := text, max_length := maxLenField.getD (some 100) }

/-- Request model ImageRequest: a single required string field holding a
base64 encoded image. -/
structure ImageRequest where
  image : String
deriving DecidableEq

/-- Success payload of POST /generate_text. -/
structure TextPayload where
  generated_text : String
  processing_time : ℚ
deriving DecidableEq

/-- Success payload of POST /process_image. embedding_shape is the shape
tuple of the CLS-token numpy array. -/
structure ImagePayload where
  embedding_shape : List Nat
  processing_time : ℚ
deriving DecidableEq

/-- Success payload of GET /health. -/
structure HealthPayload where
  status : String
deriving DecidableEq

/-- Handler of POST /generate_text. The tokenizer call, gpt_model.generate
and the decode are delegated to the external transformers library, modelled
by the oracle gen whose error value is the string representation str(e) of
the raised exception. Wall-clock readings time.time() at handler entry and
at the end of the try block are passed as t_start and t_end. On success the
handler returns the generated text with processing_time = t_end - t_start;
on any exception it raises HTTPException(status_code=500, detail=str(e)). -/
def generate_text (gen : String → Option Int → Except String String)
    (t_start t_end : ℚ) (request : TextRequest) : Resp TextPayload :=
  match gen request.text request.max_length with
  | .ok generated => .success { generated_text := generated,
                                processing_time := t_end - t_start }
  | .error e => .httpError 500 e

/-- Body of the try block of POST /process_image: base64.b64decode the
image string, Image.open the resulting bytes, then run the ViT model and
take the CLS-token shape. The three external steps are modelled by oracles
whose error value is str(e) of the raised exception; bytes are lists of
byte values and Img is the abstract type of decoded PIL images. -/
def process_image_body {Img : Type}
    (b64decode : String → Except String (List Nat))
    (imageOpen : List Nat → Except String Img)
    (vitForwardShape : Img → Except String (List Nat))
    (image : String) : Except String (List Nat) :=
  match b64decode image with
  | .error e => .error e
  | .ok image_bytes =>
    match imageOpen image_bytes with
    | .error e => .error e
    | .ok img => vitForwardShape img

/-- Handler of POST /process_image: runs the try-block body; on success
returns the embedding shape with processing_time = t_end - t_start, on any
exception raises HTTPException(status_code=500, detail=str(e)). -/
def process_image {Img : Type}
    (b64decode : String → Except String (List Nat))
    (imageOpen : List Nat → Except String Img)
    (vitForwardShape : Img → Except String (List Nat))
    (t_start t_end : ℚ) (request : ImageRequest) : Resp ImagePayload :=
  match process_image_body b64decode imageOpen vitForwardShape request.image with
  | .ok shape => .success { embedding_shape := shape,
                            processing_time := t_end - t_start }
  | .error e => .httpError 500 e

/-- Handler of GET /health: unconditionally returns the dict with status
healthy; it reads no state and has no failure branch. -/
def health_check : Resp HealthPayload :=
  .success { status := "healthy" }

/-- One client call as observed by the harness: time.time() before and after
client.post, the HTTP status code of the response, and the processing_time
field of the response JSON (only read after the status assertion passes). -/
structure ClientCall where
  start_time : ℚ
  end_time : ℚ
  status : Nat
  processing_time : ℚ
deriving DecidableEq

/-- One per-call record appended to the results list by the harness loop. -/
structure CallRecord where
  request_number : Nat
  total_time : ℚ
  server_processing_time : ℚ
deriving DecidableEq

/-- The statistics dict produced by calculate_stats. np.std returns the
nonnegative square root of the mean squared deviation; that square root is
irrational in general, so the record stores the radicand std_dev_sq and
theorem statements take Real.sqrt of it where the code's std_dev appears. -/
structure Statistics where
  average_total_time : ℚ
  average_processing_time : ℚ
  min_time : ℚ
  max_time : ℚ
  std_dev_sq : ℚ
deriving DecidableEq

/-- np.mean of a list: sum divided by length (0 on the empty list, where
numpy would warn and return nan; the harness only uses nonempty lists). -/
def npMean (xs : List ℚ) : ℚ :=
  xs.sum / (xs.length : ℚ)

/-- np.min of a list (0 on the empty list, where numpy raises; the harness
only uses nonempty lists). -/
def npMin : List ℚ → ℚ
  | [] => 0
  | x :: xs => xs.foldl min x

/-- np.max of a list (0 on the empty list, same caveat as npMin). -/
def npMax : List ℚ → ℚ
  | [] => 0
  | x :: xs => xs.foldl max x

/-- The mean squared deviation of a list: np.std of the list is its
nonnegative square root. -/
def npVariance (xs : List ℚ) : ℚ :=
  npMean (xs.map (fun x => (x - npMean xs) ^ 2))

/-- calculate_stats from the harness: mean, min, max and standard deviation
of the client-observed total_time values, and the mean of the
server-reported server_processing_time values. -/
def calculate_stats (results : List CallRecord) : Statistics :=
  let total_times := results.map (fun r => r.total_time)
  let processing_times := results.map (fun r => r.server_processing_time)
  { average_total_time := npMean total_times
    average_processing_time := npMean processing_times
    min_time := npMin total_times
    max_time := npMax total_times
    std_dev_sq := npVariance total_times }

/-- An AssertionError aborting the harness: either the status assertion of
a performance-loop call (recording the zero-based loop index and the
offending status), or the health-check assertions at the start of the run. -/
inductive HarnessError where
  | assertionFailed (request_idx : Nat) (status : Nat)
  | healthCheckFailed
deriving DecidableEq

/-- test_health from the harness: asserts that GET /health answers with
status 200 and body status healthy. -/
def test_health : Except HarnessError Unit :=
  if health_check.status = 200 ∧ health_check = .success { status := "healthy" }
  then .ok ()
  else .error .healthCheckFailed

/-- One endpoint's performance loop: for i in range(n), issue the call,
assert response.status_code == 200 (an AssertionError aborts the whole run
at that call), and append the record with request_number i+1, the
client-observed total time and the server-reported processing time. -/
def runCalls (call : Nat → ClientCall) : Nat → Except HarnessError (List CallRecord)
  | 0 => .ok []
  | n + 1 =>
    match runCalls call n with
    | .error e => .error e
    | .ok prev =>
      let c := call n
      if c.status = 200 then
        .ok (prev ++ [{ request_number := n + 1,
                        total_time := c.end_time - c.start_time,
                        server_processing_time := c.processing_time }])
      else
        .error (.assertionFailed n c.status)

/-- One endpoint's section of the saved results dict: the per-call records
and their statistics. -/
structure EndpointSection where
  individual_results : List CallRecord
  statistics : Statistics
deriving DecidableEq

/-- The content of the results file written at the end of a run: both
endpoints' per-call records and statistics in one dict. -/
structure TestResultsContent where
  gpt : EndpointSection
  vit : EndpointSection
deriving DecidableEq

/-- run_performance_tests: run test_health, then 100 sequential calls to
POST /generate_text, then 100 sequential calls to POST /process_image,
compute both statistics and, only after both loops completed, write the
single results file test_results_<timestamp>.json. The returned list is the
list of (filename, content) pairs written to disk; an aborted run writes
nothing and is the error case. -/
def run_performance_tests (gptCall vitCall : Nat → ClientCall)
    (timestamp : String) :
    Except HarnessError (List (String × TestResultsContent)) :=
  match test_health with
  | .error e => .error e
  | .ok _ =>
    match runCalls gptCall 100 with
    | .error e => .error e
    | .ok gpt_results =>
      match runCalls vitCall 100 with
      | .error e => .error e
      | .ok vit_results =>
        .ok [("test_results_" ++ timestamp ++ ".json",
              { gpt := { individual_results := gpt_results,
                         statistics := calculate_stats gpt_results },
                vit := { individual_results := vit_results,
                         statistics := calculate_stats vit_results } })]

/-- Does the first character list start with the second? -/
def charsStart : List Char → List Char → Bool
  | _, [] => true
  | [], _ :: _ => false
  | c :: cs, d :: ds => (c == d) && charsStart cs ds

/-- Does the second character list occur inside the first as a contiguous
run? -/
def charsHold : List Char → List Char → Bool
  | [], needle => needle.isEmpty
  | c :: rest, needle => charsStart (c :: rest) needle || charsHold rest needle

/-- Modelled from the spec: a file name carries an endpoint tag when the
tag occurs in it as a substring. -/
def containsTag (name tag : String) : Prop :=
  charsHold name.data tag.data = true

instance (name tag : String) : Decidable (containsTag name tag) := by
  unfold containsTag
  infer_instance

/-- Example generation oracle that always succeeds, echoing its input. -/
def genOk : String → Option Int → Except String String :=
  fun t _ => .ok t

/-- Example generation oracle that always raises, with the message a CUDA
inference failure would carry. -/
def genErr : String → Option Int → Except String String :=
  fun _ _ => .error ("CUDA error: device-side assert triggered")

/-- Example base64 decoder that always succeeds with an empty byte string. -/
def b64Ok : String → Except String (List Nat) :=
  fun _ => .ok []

/-- Example base64 decoder behaving like base64.b64decode on the malformed
input abc: binascii raises Error with message Incorrect padding. -/
def b64Err : String → Except String (List Nat) :=
  fun _ => .error ("Incorrect padding")

/-- Example PIL Image.open oracle that always succeeds. -/
def imageOpenOk : List Nat → Except String Unit :=
  fun _ => .ok ()

/-- Example PIL Image.open oracle behaving like Image.open on bytes that are
no image: UnidentifiedImageError, message starting with cannot identify
image file. -/
def imageOpenErr : List Nat → Except String Unit :=
  fun _ => .error ("cannot identify image file")

/-- Example ViT forward oracle returning the CLS-token shape (1, 768). -/
def vitShapeOk : Unit → Except String (List Nat) :=
  fun _ => .ok [1, 768]

/-- Example harness call observation: every call succeeds with status 200,
client-observed interval from 0 to 1, server-reported processing time 1. -/
def exampleCall : Nat → ClientCall :=
  fun _ => { start_time := 0, end_time := 1, status := 200, processing_time := 1 }

/-- Example harness call observation whose third call (index 2) comes back
with status 404; the first two calls succeed. -/
def exampleCallBad : Nat → ClientCall :=
  fun i =>
    if i < 2 then { start_time := 0, end_time := 1, status := 200, processing_time := 1 }
    else { start_time := 0, end_time := 1, status := 404, processing_time := 1 }

/-- The per-call records an endpoint loop produces from exampleCall. -/
def exampleRecords : List CallRecord :=
  (List.range 100).map
    (fun i => { request_number := i + 1, total_time := 1 - 0, server_processing_time := 1 })

/-- The files run_performance_tests writes for exampleCall on both
endpoints with timestamp 20240101_000000. -/
def exampleFiles : List (String × TestResultsContent) :=
  [("test_results_20240101_000000.json",
    { gpt := { individual_results := exampleRecords,
               statistics := calculate_stats exampleRecords },
      vit := { individual_results := exampleRecords,
               statistics := calculate_stats exampleRecords } })]

/-- The success payload generate_text produces from genOk on the prompt
Once upon a time with handler clock readings 1 and 2. -/
def examplePayloadText : TextPayload :=
  { generated_text := "Once upon a time", processing_time := 2 - 1 }

/-- The success payload process_image produces from the succeeding oracles
with handler clock readings 1 and 2. -/
def examplePayloadImage : ImagePayload :=
  { embedding_shape := [1, 768], processing_time := 2 - 1 }

/-- A one-call results list: total time 2, server processing time 1. -/
def runA : List CallRecord :=
  [{ request_number := 1, total_time := 2, server_processing_time := 1 }]

/-- A one-call results list with the same timings as runA but a different
request number. -/
def runB : List CallRecord :=
  [{ request_number := 7, total_time := 2, server_processing_time := 1 }]

theorem foldl_min_le_init (l : List ℚ) (a : ℚ) : l.foldl min a ≤ a := by
  induction l generalizing a with
  | nil => simp
  | cons x t ih => exact le_trans (ih (min a x)) (min_le_left a x)

theorem foldl_min_le_mem (l : List ℚ) : ∀ a : ℚ, ∀ x ∈ l, l.foldl min a ≤ x := by
  induction l with
  | nil => intro a x hx; cases hx
  | cons y t ih =>
    intro a x hx
    rcases List.mem_cons.mp hx with h | h
    · subst h
      exact le_trans (foldl_min_le_init t (min a x)) (min_le_right a x)
    · exact ih (min a y) x h

theorem init_le_foldl_max (l : List ℚ) (a : ℚ) : a ≤ l.foldl max a := by
  induction l generalizing a with
  | nil => simp
  | cons x t ih => exact le_trans (le_max_left a x) (ih (max a x))

theorem mem_le_foldl_max (l : List ℚ) : ∀ a : ℚ, ∀ x ∈ l, x ≤ l.foldl max a := by
  induction l with
  | nil => intro a x hx; cases hx
  | cons y t ih =>
    intro a x hx
    rcases List.mem_cons.mp hx with h | h
    · subst h
      exact le_trans (le_max_right a x) (init_le_foldl_max t (max a x))
    · exact ih (max a y) x h

theorem npMin_le_mem (xs : List ℚ) (x : ℚ) (hx : x ∈ xs) : npMin xs ≤ x := by
  cases xs with
  | nil => cases hx
  | cons y t =>
    rcases List.mem_cons.mp hx with h | h
    · subst h
      exact foldl_min_le_init t x
    · exact foldl_min_le_mem t y x h

theorem mem_le_npMax (xs : List ℚ) (x : ℚ) (hx : x ∈ xs) : x ≤ npMax xs := by
  cases xs with
  | nil => cases hx
  | cons y t =>
    rcases List.mem_cons.mp hx with h | h
    · subst h
      exact init_le_foldl_max t x
    · exact mem_le_foldl_max t y x h

theorem mul_length_le_sum (xs : List ℚ) (c : ℚ) (h : ∀ x ∈ xs, c ≤ x) :
    c * (xs.length : ℚ) ≤ xs.sum := by
  induction xs with
  | nil => simp
  | cons x t ih =>
    have hx := h x (List.mem_cons_self x t)
    have ht := ih (fun y hy => h y (List.mem_cons_of_mem x hy))
    simp only [List.sum_cons, List.length_cons]
    push_cast
    calc c * ((t.length : ℚ) + 1) = c * (t.length : ℚ) + c := by ring
    _ ≤ t.sum + x := by linarith
    _ = x + t.sum := by ring

theorem sum_le_mul_length (xs : List ℚ) (c : ℚ) (h : ∀ x ∈ xs, x ≤ c) :
    xs.sum ≤ c * (xs.length : ℚ) := by
  induction xs with
  | nil => simp
  | cons x t ih =>
    have hx := h x (List.mem_cons_self x t)
    have ht := ih (fun y hy => h y (List.mem_cons_of_mem x hy))
    simp only [List.sum_cons, List.length_cons]
    push_cast
    calc x + t.sum ≤ c + c * (t.length : ℚ) := by linarith
    _ = c * ((t.length : ℚ) + 1) := by ring

theorem npMin_le_npMean (xs : List ℚ) (h : xs ≠ []) : npMin xs ≤ npMean xs := by
  have hlen : 0 < (xs.length : ℚ) := by
    exact_mod_cast List.length_pos.mpr h
  rw [npMean, le_div_iff₀ hlen]
  exact mul_length_le_sum xs (npMin xs) (fun x hx => npMin_le_mem xs x hx)

theorem npMean_le_npMax (xs : List ℚ) (h : xs ≠ []) : npMean xs ≤ npMax xs := by
  have hlen : 0 < (xs.length : ℚ) := by
    exact_mod_cast List.length_pos.mpr h
  rw [npMean, div_le_iff₀ hlen]
  exact sum_le_mul_length xs (npMax xs) (fun x hx => mem_le_npMax xs x hx)

theorem npVariance_nonneg (xs : List ℚ) : 0 ≤ npVariance xs := by
  unfold npVariance npMean
  apply div_nonneg
  · apply List.sum_nonneg
    intro x hx
    rcases List.mem_map.mp hx with ⟨y, _, rfl⟩
    positivity
  · positivity

theorem test_health_eq : test_health = .ok () := rfl

theorem runCalls_zero (call : Nat → ClientCall) : runCalls call 0 = .ok [] := rfl

theorem runCalls_succ (call : Nat → ClientCall) (n : Nat) :
    runCalls call (n + 1) =
      match runCalls call n with
      | .error e => .error e
      | .ok prev =>
        if (call n).status = 200 then
          .ok (prev ++ [{ request_number := n + 1,
                          total_time := (call n).end_time - (call n).start_time,
                          server_processing_time := (call n).processing_time }])
        else
          .error (.assertionFailed n (call n).status) := rfl

theorem runCalls_ok_map (call : Nat → ClientCall) (n : Nat) (rs : List CallRecord)
    (h : runCalls call n = .ok rs) :
    rs.length = n ∧
      rs.map (fun r => r.request_number) = (List.range n).map (fun i => i + 1) := by
  induction n generalizing rs with
  | zero =>
    rw [runCalls_zero] at h
    simp only [Except.ok.injEq] at h
    subst h
    simp
  | succ n ih =>
    rw [runCalls_succ] at h
    cases hprev : runCalls call n with
    | error e =>
      rw [hprev] at h
      simp at h
    | ok prev =>
      rw [hprev] at h
      by_cases hs : (call n).status = 200
      · simp only [hs, if_true, Except.ok.injEq] at h
        obtain ⟨h1, h2⟩ := ih prev hprev
        subst h
        constructor
        · simp [h1]
        · rw [List.map_append, h2, List.range_succ, List.map_append]
          simp
      · simp only [hs, if_false] at h
        simp at h

theorem runCalls_ok_of_all (call : Nat → ClientCall) :
    ∀ n, (∀ i, i < n → (call i).status = 200) → ∃ rs, runCalls call n = .ok rs := by
  intro n
  induction n with
  | zero => intro _; exact ⟨[], rfl⟩
  | succ n ih =>
    intro h
    obtain ⟨rs, hrs⟩ := ih (fun i hi => h i (Nat.lt_succ_of_lt hi))
    refine ⟨rs ++ [{ request_number := n + 1,
                     total_time := (call n).end_time - (call n).start_time,
                     server_processing_time := (call n).processing_time }], ?_⟩
    rw [runCalls_succ, hrs]
    simp [h n (Nat.lt_succ_self n)]

theorem runCalls_error_first (call : Nat → ClientCall) (n i : Nat) (hi : i < n)
    (hfail : (call i).status ≠ 200) (hmin : ∀ j, j < i → (call j).status = 200) :
    runCalls call n = .error (.assertionFailed i (call i).status) := by
  induction n with
  | zero => exact absurd hi (Nat.not_lt_zero i)
  | succ n ih =>
    rcases Nat.lt_succ_iff_lt_or_eq.mp hi with h | h
    · rw [runCalls_succ, ih h]
    · subst h
      obtain ⟨rs, hrs⟩ := runCalls_ok_of_all call i hmin
      rw [runCalls_succ, hrs]
      simp [hfail]

/-- Claim C2: GET /health unconditionally answers with status 200 and body
with status field healthy, regardless of model state (the handler reads no
state); it has no failure branch and never raises, so the harness's
test_health assertions always pass. -/
theorem health_check_unconditional :
    health_check = .success { status := "healthy" }
    ∧ health_check.status = 200
    ∧ health_check.detail = none
    ∧ test_health = .ok () :=
  ⟨rfl, rfl, rfl, test_health_eq⟩

/-- Claim C3: for every nonempty per-call results list, calculate_stats
yields min_time ≤ average_total_time ≤ max_time, and the standard
deviation np.std — the nonnegative square root of the stored radicand
std_dev_sq — is nonnegative (as is the radicand itself). -/
theorem stats_bounds (results : List CallRecord) (h : results ≠ []) :
    (calculate_stats results).min_time ≤ (calculate_stats results).average_total_time
    ∧ (calculate_stats results).average_total_time ≤ (calculate_stats results).max_time
    ∧ 0 ≤ (calculate_stats results).std_dev_sq
    ∧ 0 ≤ Real.sqrt ((calculate_stats results).std_dev_sq : ℝ) := by
  have hne : results.map (fun r => r.total_time) ≠ [] := by
    intro hmap
    exact h (List.map_eq_nil_iff.mp hmap)
  simp only [calculate_stats]
  exact ⟨npMin_le_npMean _ hne, npMean_le_npMax _ hne,
         npVariance_nonneg _, Real.sqrt_nonneg _⟩

/-- Witness for stats_bounds at the concrete one-call run runA. -/
theorem stats_bounds_witness :
    runA ≠ [] ∧
      ((calculate_stats runA).min_time ≤ (calculate_stats runA).average_total_time
       ∧ (calculate_stats runA).average_total_time ≤ (calculate_stats runA).max_time
       ∧ 0 ≤ (calculate_stats runA).std_dev_sq
       ∧ 0 ≤ Real.sqrt ((calculate_stats runA).std_dev_sq : ℝ)) :=
  ⟨by decide, stats_bounds runA (by decide)⟩

/-- Claim C5: calculate_stats computes average_total_time, min_time,
max_time and the standard-deviation radicand over the client-observed
total_time values only, average_processing_time as the mean of the
server-reported server_processing_time values only, and no statistic other
than average_processing_time depends on the server-reported times. -/
theorem stats_projections (results other : List CallRecord) :
    ((calculate_stats results).average_total_time
        = npMean (results.map (fun r => r.total_time))
      ∧ (calculate_stats results).min_time = npMin (results.map (fun r => r.total_time))
      ∧ (calculate_stats results).max_time = npMax (results.map (fun r => r.total_time))
      ∧ (calculate_stats results).std_dev_sq
          = npVariance (results.map (fun r => r.total_time))
      ∧ (calculate_stats results).average_processing_time
          = npMean (results.map (fun r => r.server_processing_time)))
    ∧ (results.map (fun r => r.total_time) = other.map (fun r => r.total_time) →
        (calculate_stats results).average_total_time
            = (calculate_stats other).average_total_time
        ∧ (calculate_stats results).min_time = (calculate_stats other).min_time
        ∧ (calculate_stats results).max_time = (calculate_stats other).max_time
        ∧ (calculate_stats results).std_dev_sq = (calculate_stats other).std_dev_sq)
    ∧ (results.map (fun r => r.server_processing_time)
          = other.map (fun r => r.server_processing_time) →
        (calculate_stats results).average_processing_time
          = (calculate_stats other).average_processing_time) := by
  refine ⟨⟨rfl, rfl, rfl, rfl, rfl⟩, ?_, ?_⟩
  · intro h
    simp only [calculate_stats]
    refine ⟨?_, ?_, ?_, ?_⟩ <;> rw [h]
  · intro h
    simp only [calculate_stats]
    rw [h]

/-- Witness for stats_projections at the concrete runs runA and runB,
which share timings but differ in request numbers. -/
theorem stats_projections_witness :
    (calculate_stats runA).average_total_time = (calculate_stats runB).average_total_time
    ∧ (calculate_stats runA).average_processing_time
        = (calculate_stats runB).average_processing_time :=
  ⟨((stats_projections runA runB).2.1 (by decide)).1,
   (stats_projections runA runB).2.2 (by decide)⟩

/-- Claim C9: the max_length field of TextRequest is optional with default
100: a body that omits it parses to max_length = 100 and the handler then
generates with max_length 100; construction applies no validation beyond
the declared field types (any string and any well-typed max_length field
are accepted unchanged). -/
theorem max_length_default (t : String) (mlf : Option (Option Int))
    (gen : String → Option Int → Except String String) (t1 t2 : ℚ) :
    (TextRequest.ofFields t none).max_length = some 100
    ∧ generate_text gen t1 t2 (TextRequest.ofFields t none)
        = generate_text gen t1 t2 { text := t, max_length := some 100 }
    ∧ (TextRequest.ofFields t mlf).text = t
    ∧ (TextRequest.ofFields t mlf).max_length = mlf.getD (some 100) :=
  ⟨rfl, rfl, rfl, rfl⟩

/-- Claim C1: whenever the try-block body of POST /generate_text or POST
/process_image raises an exception, the handler answers HTTP 500 whose
detail is exactly the string representation of the raised exception; and
conversely every non-success response of these handlers is such a 500, so
no other error status is ever produced. -/
theorem handler_error_collapse
    (gen : String → Option Int → Except String String) {Img : Type}
    (b64decode : String → Except String (List Nat))
    (imageOpen : List Nat → Except String Img)
    (vitForwardShape : Img → Except String (List Nat))
    (t1 t2 : ℚ) (treq : TextRequest) (ireq : ImageRequest) :
    (∀ e, gen treq.text treq.max_length = .error e →
        generate_text gen t1 t2 treq = .httpError 500 e)
    ∧ (∀ s d, generate_text gen t1 t2 treq = .httpError s d →
        s = 500 ∧ gen treq.text treq.max_length = .error d)
    ∧ (∀ e, process_image_body b64decode imageOpen vitForwardShape ireq.image = .error e →
        process_image b64decode imageOpen vitForwardShape t1 t2 ireq = .httpError 500 e)
    ∧ (∀ s d, process_image b64decode imageOpen vitForwardShape t1 t2 ireq = .httpError s d →
        s = 500
        ∧ process_image_body b64decode imageOpen vitForwardShape ireq.image = .error d) := by
  refine ⟨?_, ?_, ?_, ?_⟩
  · intro e he
    simp [generate_text, he]
  · intro s d h
    unfold generate_text at h
    cases hg : gen treq.text treq.max_length with
    | ok g =>
      rw [hg] at h
      simp at h
    | error e =>
      rw [hg] at h
      simp only [Resp.httpError.injEq] at h
      exact ⟨h.1.symm, by rw [h.2]⟩
  · intro e he
    simp [process_image, he]
  · intro s d h
    unfold process_image at h
    cases hb : process_image_body b64decode imageOpen vitForwardShape ireq.image with
    | ok sh =>
      rw [hb] at h
      simp at h
    | error e =>
      rw [hb] at h
      simp only [Resp.httpError.injEq] at h
      exact ⟨h.1.symm, by rw [h.2]⟩

/-- Witness for handler_error_collapse: a raising generation oracle and a
raising base64 decode yield exactly the 500 responses with the exception
message as detail. -/
theorem handler_error_collapse_witness :
    generate_text genErr 0 1 { text := "Once upon a time", max_length := some 50 }
        = .httpError 500 ("CUDA error: device-side assert triggered")
    ∧ process_image b64Err imageOpenOk vitShapeOk 0 1 { image := "abc" }
        = .httpError 500 ("Incorrect padding") :=
  ⟨(handler_error_collapse genErr b64Err imageOpenOk vitShapeOk 0 1
      { text := "Once upon a time", max_length := some 50 } { image := "abc" }).1
      ("CUDA error: device-side assert triggered") rfl,
   (handler_error_collapse genErr b64Err imageOpenOk vitShapeOk 0 1
      { text := "Once upon a time", max_length := some 50 } { image := "abc" }).2.2.1
      ("Incorrect padding") rfl⟩

/-- Claim C4: for every valid (successfully answered) request to either
POST endpoint, the processing_time in the response is nonnegative and
strictly below the client-observed total time, under the wall-clock event
ordering client-start ≤ handler-start ≤ handler-end ≤ client-end with
strictly positive network/serialization overhead on at least one side. -/
theorem processing_time_bounds
    (gen : String → Option Int → Except String String) {Img : Type}
    (b64decode : String → Except String (List Nat))
    (imageOpen : List Nat → Except String Img)
    (vitForwardShape : Img → Except String (List Nat))
    (treq : TextRequest) (ireq : ImageRequest)
    (s t1 t2 e : ℚ)
    (h1 : s ≤ t1) (h2 : t1 ≤ t2) (h3 : t2 ≤ e)
    (hov : s < t1 ∨ t2 < e) :
    (∀ p, generate_text gen t1 t2 treq = .success p →
        0 ≤ p.processing_time ∧ p.processing_time < e - s)
    ∧ (∀ p, process_image b64decode imageOpen vitForwardShape t1 t2 ireq = .success p →
        0 ≤ p.processing_time ∧ p.processing_time < e - s) := by
  have key : 0 ≤ t2 - t1 ∧ t2 - t1 < e - s := by
    constructor
    · linarith
    · rcases hov with h | h <;> linarith
  constructor
  · intro p hp
    unfold generate_text at hp
    cases hg : gen treq.text treq.max_length with
    | ok g =>
      rw [hg] at hp
      simp only [Resp.success.injEq] at hp
      rw [← hp]
      exact key
    | error err =>
      rw [hg] at hp
      simp at hp
  · intro p hp
    unfold process_image at hp
    cases hb : process_image_body b64decode imageOpen vitForwardShape ireq.image with
    | ok sh =>
      rw [hb] at hp
      simp only [Resp.success.injEq] at hp
      rw [← hp]
      exact key
    | error err =>
      rw [hb] at hp
      simp at hp

/-- Witness for processing_time_bounds: client window from 0 to 3, handler
window from 1 to 2, succeeding oracles. -/
theorem processing_time_bounds_witness :
    (0 ≤ examplePayloadText.processing_time
      ∧ examplePayloadText.processing_time < 3 - 0)
    ∧ (0 ≤ examplePayloadImage.processing_time
      ∧ examplePayloadImage.processing_time < 3 - 0) :=
  ⟨(processing_time_bounds genOk b64Ok imageOpenOk vitShapeOk
      { text := "Once upon a time", max_length := some 50 } { image := "abc" }
      0 1 2 3 (by norm_num) (by norm_num) (by norm_num) (Or.inl (by norm_num))).1
      examplePayloadText rfl,
   (processing_time_bounds genOk b64Ok imageOpenOk vitShapeOk
      { text := "Once upon a time", max_length := some 50 } { image := "abc" }
      0 1 2 3 (by norm_num) (by norm_num) (by norm_num) (Or.inl (by norm_num))).2
      examplePayloadImage rfl⟩

/-- Claim C8: a POST /process_image request whose image field is not valid
base64, or whose decoded bytes are not a valid image, is answered with
status 500 whose detail is the (nonempty) exception message; the handler
returns this response normally rather than crashing the process. -/
theorem malformed_base64_500 {Img : Type}
    (b64decode : String → Except String (List Nat))
    (imageOpen : List Nat → Except String Img)
    (vitForwardShape : Img → Except String (List Nat))
    (t1 t2 : ℚ) (req : ImageRequest) (e : String) (bs : List Nat)
    (he : e ≠ "") :
    (b64decode req.image = .error e →
        process_image b64decode imageOpen vitForwardShape t1 t2 req = .httpError 500 e
        ∧ (process_image b64decode imageOpen vitForwardShape t1 t2 req).status = 500
        ∧ (process_image b64decode imageOpen vitForwardShape t1 t2 req).detail = some e
        ∧ e ≠ "")
    ∧ (b64decode req.image = .ok bs → imageOpen bs = .error e →
        process_image b64decode imageOpen vitForwardShape t1 t2 req = .httpError 500 e
        ∧ (process_image b64decode imageOpen vitForwardShape t1 t2 req).status = 500
        ∧ (process_image b64decode imageOpen vitForwardShape t1 t2 req).detail = some e
        ∧ e ≠ "") := by
  constructor
  · intro hb
    have hbody : process_image_body b64decode imageOpen vitForwardShape req.image
        = .error e := by
      simp [process_image_body, hb]
    refine ⟨?_, ?_, ?_, he⟩ <;> simp [process_image, hbody, Resp.status, Resp.detail]
  · intro hb ho
    have hbody : process_image_body b64decode imageOpen vitForwardShape req.image
        = .error e := by
      simp [process_image_body, hb, ho]
    refine ⟨?_, ?_, ?_, he⟩ <;> simp [process_image, hbody, Resp.status, Resp.detail]

/-- Witness for malformed_base64_500: the binascii Incorrect padding error
and the PIL cannot identify image file error both surface as 500. -/
theorem malformed_base64_500_witness :
    process_image b64Err imageOpenOk vitShapeOk 0 1 { image := "a" }
        = .httpError 500 ("Incorrect padding")
    ∧ process_image b64Ok imageOpenErr vitShapeOk 0 1 { image := "" }
        = .httpError 500 ("cannot identify image file") :=
  ⟨((malformed_base64_500 b64Err imageOpenOk vitShapeOk 0 1 { image := "a" }
      ("Incorrect padding") [] (by decide)).1 rfl).1,
   ((malformed_base64_500 b64Ok imageOpenErr vitShapeOk 0 1 { image := "" }
      ("cannot identify image file") [] (by decide)).2 rfl rfl).1⟩

/-- Claim C6 (amended): after a full harness run the results are persisted
as one JSON file named test_results_ followed by the timestamp — carrying
no endpoint tag — containing both endpoints' full TestRuns (every per-call
record) and their Statistics records; the per-call lists are only appended
to during the run and the file is produced only after both endpoint loops
completed, an aborted run persisting nothing. -/
theorem single_results_file (gptCall vitCall : Nat → ClientCall) (ts : String)
    (rsg rsv : List CallRecord)
    (hg : runCalls gptCall 100 = .ok rsg) (hv : runCalls vitCall 100 = .ok rsv) :
    run_performance_tests gptCall vitCall ts
      = .ok [("test_results_" ++ ts ++ ".json",
              { gpt := { individual_results := rsg,
                         statistics := calculate_stats rsg },
                vit := { individual_results := rsv,
                         statistics := calculate_stats rsv } })] := by
  unfold run_performance_tests
  rw [test_health_eq, hg, hv]

/-- Witness for single_results_file at the concrete all-success run. -/
theorem single_results_file_witness :
    run_performance_tests exampleCall exampleCall ("20240101_000000")
      = .ok [("test_results_" ++ "20240101_000000" ++ ".json",
              { gpt := { individual_results := exampleRecords,
                         statistics := calculate_stats exampleRecords },
                vit := { individual_results := exampleRecords,
                         statistics := calculate_stats exampleRecords } })] :=
  single_results_file exampleCall exampleCall ("20240101_000000")
    exampleRecords exampleRecords rfl rfl

/-- Counterexample to claim C6 as stated: a completed successful run
writes exactly one results file, whose name
test_results_20240101_000000.json carries a timestamp but no endpoint tag
— neither gpt nor vit occurs in it — and which holds both endpoints'
results together rather than one endpoint's results per file. -/
theorem results_file_naming_counterexample :
    Except.map (fun fs => fs.map Prod.fst)
        (run_performance_tests exampleCall exampleCall ("20240101_000000"))
      = .ok [("test_results_20240101_000000.json")]
    ∧ ¬ containsTag ("test_results_20240101_000000.json") ("gpt")
    ∧ ¬ containsTag ("test_results_20240101_000000.json") ("vit") :=
  ⟨rfl, by decide, by decide⟩

/-- Claim C7: the harness issues exactly 100 sequential calls to each of
the two endpoints — one at a time, each completed (and asserted) before
the next starts, as runCalls threads every call through the previous
result — and on a completed run each endpoint's recorded results form an
ordered sequence whose request_number fields are exactly 1 through 100 in
order. -/
theorem harness_sequence (gptCall vitCall : Nat → ClientCall) (ts : String)
    (files : List (String × TestResultsContent))
    (h : run_performance_tests gptCall vitCall ts = .ok files) :
    ∃ content, files = [("test_results_" ++ ts ++ ".json", content)]
      ∧ runCalls gptCall 100 = .ok content.gpt.individual_results
      ∧ runCalls vitCall 100 = .ok content.vit.individual_results
      ∧ content.gpt.individual_results.length = 100
      ∧ content.gpt.individual_results.map (fun r => r.request_number)
          = (List.range 100).map (fun i => i + 1)
      ∧ content.vit.individual_results.length = 100
      ∧ content.vit.individual_results.map (fun r => r.request_number)
          = (List.range 100).map (fun i => i + 1) := by
  unfold run_performance_tests at h
  rw [test_health_eq] at h
  cases hgc : runCalls gptCall 100 with
  | error e =>
    rw [hgc] at h
    simp at h
  | ok rsg =>
    rw [hgc] at h
    cases hvc : runCalls vitCall 100 with
    | error e =>
      rw [hvc] at h
      simp at h
    | ok rsv =>
      rw [hvc] at h
      simp only [Except.ok.injEq] at h
      subst h
      obtain ⟨hlg, hmg⟩ := runCalls_ok_map gptCall 100 rsg hgc
      obtain ⟨hlv, hmv⟩ := runCalls_ok_map vitCall 100 rsv hvc
      exact ⟨_, rfl, rfl, rfl, hlg, hmg, hlv, hmv⟩

/-- Witness for harness_sequence at the concrete all-success run. -/
theorem harness_sequence_witness :
    ∃ content, exampleFiles = [("test_results_" ++ "20240101_000000" ++ ".json", content)]
      ∧ runCalls exampleCall 100 = .ok content.gpt.individual_results
      ∧ runCalls exampleCall 100 = .ok content.vit.individual_results
      ∧ content.gpt.individual_results.length = 100
      ∧ content.gpt.individual_results.map (fun r => r.request_number)
          = (List.range 100).map (fun i => i + 1)
      ∧ content.vit.individual_results.length = 100
      ∧ content.vit.individual_results.map (fun r => r.request_number)
          = (List.range 100).map (fun i => i + 1) :=
  harness_sequence exampleCall exampleCall ("20240101_000000") exampleFiles rfl

/-- Claim C10: if a harness call to either endpoint answers with a status
other than 200, the run aborts at that call (the first failing one) via
the status assertion, and no results file is written at all — persistence
is all-or-nothing. -/
theorem abort_on_non_200 (gptCall vitCall : Nat → ClientCall) (ts : String)
    (i : Nat) (hi : i < 100) :
    ((gptCall i).status ≠ 200 → (∀ j, j < i → (gptCall j).status = 200) →
        run_performance_tests gptCall vitCall ts
          = .error (.assertionFailed i (gptCall i).status))
    ∧ ((∀ j, j < 100 → (gptCall j).status = 200) →
        (vitCall i).status ≠ 200 → (∀ j, j < i → (vitCall j).status = 200) →
        run_performance_tests gptCall vitCall ts
          = .error (.assertionFailed i (vitCall i).status)) := by
  constructor
  · intro hf hmin
    have hg := runCalls_error_first gptCall 100 i hi hf hmin
    unfold run_performance_tests
    rw [test_health_eq, hg]
  · intro hall hf hmin
    obtain ⟨rsg, hrsg⟩ := runCalls_ok_of_all gptCall 100 hall
    have hv := runCalls_error_first vitCall 100 i hi hf hmin
    unfold run_performance_tests
    rw [test_health_eq, hrsg, hv]

/-- Witness for abort_on_non_200: a call source failing at index 2 with
status 404 aborts the run there, on either endpoint's loop. -/
theorem abort_on_non_200_witness :
    run_performance_tests exampleCallBad exampleCall ("20240101_000000")
        = .error (.assertionFailed 2 (exampleCallBad 2).status)
    ∧ run_performance_tests exampleCall exampleCallBad ("20240101_000000")
        = .error (.assertionFailed 2 (exampleCallBad 2).status) :=
  ⟨(abort_on_non_200 exampleCallBad exampleCall ("20240101_000000") 2 (by norm_num)).1
      (by decide) (by decide),
   (abort_on_non_200 exampleCall exampleCallBad ("20240101_000000") 2 (by norm_num)).2
      (by decide) (by decide) (by decide)⟩

end GptVitApi
